import Mathlib

/-!
Verification of the falling-sand simulator (src/main.c) against its
natural-language specification.

The grid `Point points[ROWS][COLS]` is modelled as a total function
`ℤ → ℤ → Point` (row, then column, matching the C access `points[row][col]`);
cells outside `[0, ROWS) × [0, COLS)` stand for whatever memory lies past the
array, so any behaviour that depends on them is behaviour that depends on an
out-of-bounds read in the C program.  Loops are modelled with explicit fuel,
returning `none` when the fuel runs out, so non-termination of a C loop shows
up as `none` for every fuel value.  The random source `rand()` is modelled as
an oracle stream `rand : ℕ → ℕ` together with a cursor that advances by one
per call.
-/

/-- `Color` struct from src/main.c (Uint8 channels; the sampled values never
exceed 255, so `ℕ` is faithful). -/
structure Color where
  r : ℕ
  g : ℕ
  b : ℕ
deriving DecidableEq

/-- `Point` struct from src/main.c: `int exists; Color color;`.
The C field `exists` is a Lean keyword, hence `exists_`. -/
structure Point where
  exists_ : ℤ
  color : Color
deriving DecidableEq

/-- `#define WIDTH 640` -/
def WIDTH : ℤ := 640

/-- `#define HEIGHT 480` -/
def HEIGHT : ℤ := 480

/-- `#define SCALING_FACTOR 10` -/
def SCALING_FACTOR : ℤ := 10

/-- `#define COLS WIDTH / SCALING_FACTOR` -/
def COLS : ℤ := WIDTH / SCALING_FACTOR

/-- `#define ROWS HEIGHT / SCALING_FACTOR` -/
def ROWS : ℤ := HEIGHT / SCALING_FACTOR

/-- The grid `Point points[ROWS][COLS]`, as a total function on (row, col). -/
abbrev Grid := ℤ → ℤ → Point

/-- The C store `points[row][col] = p`. -/
def setPoint (points : Grid) (row col : ℤ) (p : Point) : Grid :=
  fun r c => if r = row ∧ c = col then p else points r c

/-- The C store `points[row][col].exists = v` (keeps the color field). -/
def setExists (points : Grid) (row col : ℤ) (v : ℤ) : Grid :=
  setPoint points row col { exists_ := v, color := (points row col).color }

/-- `varyColor` from src/main.c, lines 39-46; the three `rand()` calls are
the oracle values at positions `k`, `k+1`, `k+2`. -/
def varyColor (rand : ℕ → ℕ) (k : ℕ) : Color :=
  { r := 200 + rand k % 20
    g := 170 + rand (k + 1) % 20
    b := 60 + rand (k + 2) % 10 }

/-- `addNewPoint` from src/main.c, lines 49-59: bounds-check, then set the
cell occupied with the given color.  Returns the C return value paired with
the updated grid. -/
def addNewPoint (points : Grid) (col row : ℤ) (color : Color) : ℤ × Grid :=
  if col < 0 ∨ col ≥ COLS ∨ row < 0 ∨ row ≥ ROWS then
    (-1, points)
  else
    (0, setPoint points row col { exists_ := 1, color := color })

/-- One iteration of the `while (falling == 1)` body of `sandGravity`
(src/main.c lines 65-88), with the loop's fixed `col`, `row`, `color`.
`some g` means the iteration moved the grain and the loop continues with
grid `g`; `none` means the `else` branch set `falling = 0`.
Note the literal transcription of the source:
line 67 tests `points[row][col + 1]`, line 69 moves to `(col + 1, row)`,
and line 81 moves to `(col - 1, row + 1)` although line 79 tested
`points[row + 1][col + 1]`. -/
def sandGravityStep (points : Grid) (col row : ℤ) (color : Color) : Option Grid :=
  if (points row (col + 1)).exists_ = 0 then
    some (addNewPoint (setExists points row col (-1)) (col + 1) row color).2
  else if (points (row + 1) (col - 1)).exists_ = 0 then
    some (addNewPoint (setExists points row col (-1)) (col - 1) (row + 1) color).2
  else if (points (row + 1) (col + 1)).exists_ = 0 then
    some (addNewPoint (setExists points row col (-1)) (col - 1) (row + 1) color).2
  else
    none

/-- The `while (falling == 1)` loop of `sandGravity`, with fuel.
`none` means the fuel ran out before `falling` became 0. -/
def sandGravityLoop : ℕ → Grid → ℤ → ℤ → Color → Option Grid
  | 0, _, _, _, _ => none
  | Nat.succ n, points, col, row, color =>
    match sandGravityStep points col row color with
    | none => some points
    | some g => sandGravityLoop n g col row color

/-- `sandGravity` from src/main.c, lines 61-91: reads the grain's color once,
then runs the settling loop. -/
def sandGravity (fuel : ℕ) (points : Grid) (col row : ℤ) : Option Grid :=
  sandGravityLoop fuel points col row (points row col).color

/-- The grid indices `(row, col)` read by the three neighbor tests of one
iteration of `sandGravity`'s loop (src/main.c lines 67, 73, 79); a later test
is only reached — hence only read — when the earlier ones saw a nonzero
`exists` field. -/
def sandGravityReads (points : Grid) (col row : ℤ) : List (ℤ × ℤ) :=
  (row, col + 1) ::
    (if (points row (col + 1)).exists_ = 0 then []
     else (row + 1, col - 1) ::
       (if (points (row + 1) (col - 1)).exists_ = 0 then []
        else [(row + 1, col + 1)]))

/-- The number of occupied cells of the grid: in-bounds cells whose `exists`
field is 1 (the cells `drawAllPoints` renders). -/
def occCount (points : Grid) : ℕ :=
  (List.range ROWS.toNat).foldl
    (fun acc r =>
      acc + (List.range COLS.toNat).countP
        (fun c => (points (Int.ofNat r) (Int.ofNat c)).exists_ == 1))
    0

/-- The body of `drawLine`'s loop that paints the current cell
(src/main.c lines 131-135): bounds check, paint only if `exists == 0`,
with a freshly sampled `varyColor`.  Returns the grid and the advanced
random-oracle cursor. -/
def drawLinePaint (points : Grid) (rand : ℕ → ℕ) (k : ℕ) (x y : ℤ) : Grid × ℕ :=
  if 0 ≤ x ∧ x < COLS ∧ 0 ≤ y ∧ y < ROWS then
    if (points y x).exists_ = 0 then
      ((addNewPoint points x y (varyColor rand k)).2, k + 3)
    else (points, k)
  else (points, k)

/-- The `while (1)` loop of `drawLine` (src/main.c lines 129-148), with fuel:
paint the current cell, break when `(x, y) = (x2, y2)`, otherwise update
`err`, `x`, `y` from `e2 = 2*err` as in the source and continue. -/
def drawLineLoop : ℕ → Grid → (ℕ → ℕ) → ℕ → ℤ → ℤ → ℤ → ℤ → ℤ → ℤ → ℤ → ℤ → ℤ → Option Grid
  | 0, _, _, _, _, _, _, _, _, _, _, _, _ => none
  | Nat.succ fuel, points, rand, k, x, y, x2, y2, dx, dy, sx, sy, err =>
    if x = x2 ∧ y = y2 then
      some (drawLinePaint points rand k x y).1
    else
      drawLineLoop fuel (drawLinePaint points rand k x y).1 rand
        (drawLinePaint points rand k x y).2
        (if 2 * err > -dy then x + sx else x)
        (if 2 * err < dx then y + sy else y)
        x2 y2 dx dy sx sy
        (if 2 * err > -dy then
          (if 2 * err < dx then err - dy + dx else err - dy)
         else
          (if 2 * err < dx then err + dx else err))

/-- `drawLine` from src/main.c, lines 120-151: Bresenham setup
(`dx = abs(x2-x1)`, `dy = abs(y2-y1)`, step signs, `err = dx - dy`)
followed by the painting loop. -/
def drawLine (fuel : ℕ) (points : Grid) (rand : ℕ → ℕ) (k : ℕ)
    (x1 y1 x2 y2 : ℤ) : Option Grid :=
  drawLineLoop fuel points rand k x1 y1 x2 y2 |x2 - x1| |y2 - y1|
    (if x1 < x2 then 1 else -1) (if y1 < y2 then 1 else -1)
    (|x2 - x1| - |y2 - y1|)

/-- Modelled from the spec: the ordered sequence of grid cells `(x, y)` on
the Bresenham line between the endpoints, as §4.3 describes it (direction
signs from comparing coordinates, `err = |dx| - |dy|`, `2*err` compared
against `-dy` and `dx` each step).  Used as the specification-side set of
visited cells for the frame-effect claim about `drawLine`. -/
def bresenhamLoop : ℕ → ℤ → ℤ → ℤ → ℤ → ℤ → ℤ → ℤ → ℤ → ℤ → Option (List (ℤ × ℤ))
  | 0, _, _, _, _, _, _, _, _, _ => none
  | Nat.succ fuel, x, y, x2, y2, dx, dy, sx, sy, err =>
    if x = x2 ∧ y = y2 then
      some [(x, y)]
    else
      Option.map (fun tr => (x, y) :: tr)
        (bresenhamLoop fuel
          (if 2 * err > -dy then x + sx else x)
          (if 2 * err < dx then y + sy else y)
          x2 y2 dx dy sx sy
          (if 2 * err > -dy then
            (if 2 * err < dx then err - dy + dx else err - dy)
           else
            (if 2 * err < dx then err + dx else err)))

/-- Modelled from the spec: the Bresenham line between `(x1, y1)` and
`(x2, y2)` with the same setup as `drawLine`. -/
def bresenhamLine (fuel : ℕ) (x1 y1 x2 y2 : ℤ) : Option (List (ℤ × ℤ)) :=
  bresenhamLoop fuel x1 y1 x2 y2 |x2 - x1| |y2 - y1|
    (if x1 < x2 then 1 else -1) (if y1 < y2 then 1 else -1)
    (|x2 - x1| - |y2 - y1|)

/-- The SDL events the main loop inspects (src/main.c lines 194-206);
`other` stands for any event type the loop ignores. -/
inductive SDLEvent where
  | mousebuttondown
  | mousebuttonup
  | quitevent
  | other
deriving DecidableEq

/-- The mutable state of `main`'s loop (src/main.c lines 178-191):
the grid, `mouseHeld`, `prevX`, `prevY`, `quit`. -/
structure MainState where
  points : Grid
  mouseHeld : Bool
  prevX : ℤ
  prevY : ℤ
  quit : Bool

/-- One `SDL_PollEvent` dispatch (src/main.c lines 195-205). -/
def pollEvent (s : MainState) (e : SDLEvent) : MainState :=
  match e with
  | .mousebuttondown => { s with mouseHeld := true }
  | .mousebuttonup => { s with mouseHeld := false, prevX := -1, prevY := -1 }
  | .quitevent => { s with quit := true }
  | .other => s

/-- The `while (SDL_PollEvent(&event))` drain (src/main.c line 194). -/
def pollEvents (s : MainState) (events : List SDLEvent) : MainState :=
  events.foldl pollEvent s

/-- One iteration of `main`'s `while (!quit)` loop (src/main.c lines
193-232), as its effect on the loop state: drain events; if the mouse is
held, scale the sampled pointer position and either rasterize a line from
the previous cell or paint a single point, then record the position.
`drawAllPoints` and `SDL_Delay` touch only the renderer and the clock, not
the state.  `fuel`, `rand`, `k` feed `drawLine`'s loop and color sampling;
`none` means `drawLine`'s fuel ran out. -/
def mainFrame (fuel : ℕ) (rand : ℕ → ℕ) (k : ℕ) (s : MainState)
    (events : List SDLEvent) (mouseX mouseY : ℤ) : Option MainState :=
  let s1 := pollEvents s events
  if s1.mouseHeld then
    let mx := mouseX / SCALING_FACTOR
    let my := mouseY / SCALING_FACTOR
    if s1.prevX ≥ 0 ∧ s1.prevY ≥ 0 then
      match drawLine fuel s1.points rand k s1.prevX s1.prevY mx my with
      | none => none
      | some g => some { s1 with points := g, prevX := mx, prevY := my }
    else
      some { s1 with
              points := (addNewPoint s1.points mx my (varyColor rand k)).2,
              prevX := mx, prevY := my }
  else
    some s1

/-- A fixed sand color used by the concrete test grids. -/
def c0 : Color := { r := 200, g := 170, b := 60 }

/-- A second, distinct color, to observe overwrites. -/
def cA : Color := { r := 1, g := 2, b := 3 }

/-- A constant random oracle for concrete runs. -/
def rand0 : ℕ → ℕ := fun _ => 0

/-- The all-unoccupied grid `main` initializes (src/main.c lines 181-185). -/
def gEmpty : Grid := fun _ _ => { exists_ := 0, color := c0 }

/-- Counterexample grid for the conservation claim: a grain at
(col 1, row 0), an occupied cell at (col 2, row 1), all else empty. -/
def gC1 : Grid := fun r c =>
  if r = 0 ∧ c = 1 then { exists_ := 1, color := c0 }
  else if r = 1 ∧ c = 2 then { exists_ := 1, color := cA }
  else { exists_ := 0, color := c0 }

/-- Grid with a single grain at (col 3, row 0): the cell below it is empty,
so the specified rule would move it straight down. -/
def gC3 : Grid := fun r c =>
  if r = 0 ∧ c = 3 then { exists_ := 1, color := c0 }
  else { exists_ := 0, color := c0 }

/-- Grid for the down-right rule: grain at (col 1, row 0); below
(col 1, row 1) and below-left (col 0, row 1) occupied; below-right
(col 2, row 1) free; right neighbor (col 2, row 0) occupied. -/
def gC4 : Grid := fun r c =>
  if r = 0 ∧ c = 1 then { exists_ := 1, color := c0 }
  else if r = 0 ∧ c = 2 then { exists_ := 1, color := c0 }
  else if r = 1 ∧ c = 1 then { exists_ := 1, color := c0 }
  else if r = 1 ∧ c = 0 then { exists_ := 1, color := cA }
  else { exists_ := 0, color := c0 }

/-- Grid for the bounds claim: grain in the bottom-left corner
(col 0, row 47 = ROWS-1), with its right neighbor occupied so the second
neighbor test is reached. -/
def gC5 : Grid := fun r c =>
  if r = 47 ∧ c = 0 then { exists_ := 1, color := c0 }
  else if r = 47 ∧ c = 1 then { exists_ := 1, color := c0 }
  else { exists_ := 0, color := c0 }

/-- Grid for the termination claim: grain at (col 2, row 0); right neighbor
(col 3, row 0) and below-left (col 1, row 1) occupied; below-right
(col 3, row 1) free. -/
def gC6 : Grid := fun r c =>
  if r = 0 ∧ c = 2 then { exists_ := 1, color := c0 }
  else if r = 0 ∧ c = 3 then { exists_ := 1, color := c0 }
  else if r = 1 ∧ c = 1 then { exists_ := 1, color := c0 }
  else { exists_ := 0, color := c0 }

/-- Grid for the boxed-in claim: grain at (col 2, row 0) with below
(col 2, row 1), below-left (col 1, row 1) and below-right (col 3, row 1)
all occupied; the cell to its right (col 3, row 0) is empty. -/
def gC7 : Grid := fun r c =>
  if r = 0 ∧ c = 2 then { exists_ := 1, color := c0 }
  else if r = 1 ∧ c = 1 then { exists_ := 1, color := c0 }
  else if r = 1 ∧ c = 2 then { exists_ := 1, color := c0 }
  else if r = 1 ∧ c = 3 then { exists_ := 1, color := c0 }
  else { exists_ := 0, color := c0 }

/-- Loop state for the per-frame claim: mouse not held, no stroke in
progress, and a single grain at (col 2, row 0) hanging in mid-air. -/
def sC2 : MainState :=
  { points := fun r c =>
      if r = 0 ∧ c = 2 then { exists_ := 1, color := c0 }
      else { exists_ := 0, color := c0 }
    mouseHeld := false
    prevX := -1
    prevY := -1
    quit := false }

/-- The grid produced by rasterizing a stroke from (0,0) to (5,0) on the
empty grid (fuel 10 is ample for the 6-step line). -/
def gC9 : Grid := (drawLine 10 gEmpty rand0 0 0 0 5 0).getD gEmpty

/-- The cells of the Bresenham line from (0,0) to (5,0). -/
def trC9 : List (ℤ × ℤ) := [(0, 0), (1, 0), (2, 0), (3, 0), (4, 0), (5, 0)]

/-- The grid produced by rasterizing a stroke from (0,0) to (1,1) on the
empty grid, for the frame-effect witness. -/
def gW10 : Grid := (drawLine 3 gEmpty rand0 0 0 0 1 1).getD gEmpty

/-- The cells of the Bresenham line from (0,0) to (1,1). -/
def trW10 : List (ℤ × ℤ) := (bresenhamLine 3 0 0 1 1).getD []

theorem COLS_eq : COLS = 64 := rfl

theorem ROWS_eq : ROWS = 48 := rfl

/-- C8: `addNewPoint` with an out-of-bounds `(col, row)` returns -1
(`OutOfBounds`) and leaves the whole grid unchanged; with an in-bounds
`(col, row)` it returns 0 and sets exactly that cell to occupied with the
given color, regardless of the cell's prior state, leaving every other cell
unchanged. -/
theorem addNewPoint_spec (points : Grid) (col row : ℤ) (color : Color) :
    (¬ (0 ≤ col ∧ col < COLS ∧ 0 ≤ row ∧ row < ROWS) →
      addNewPoint points col row color = (-1, points)) ∧
    ((0 ≤ col ∧ col < COLS ∧ 0 ≤ row ∧ row < ROWS) →
      (addNewPoint points col row color).1 = 0 ∧
      (addNewPoint points col row color).2 row col = { exists_ := 1, color := color } ∧
      ∀ r c : ℤ, ¬ (r = row ∧ c = col) →
        (addNewPoint points col row color).2 r c = points r c) := by
  constructor
  · intro h
    unfold addNewPoint
    rw [if_pos (by push_neg at h; omega)]
  · intro h
    unfold addNewPoint
    rw [if_neg (by push_neg; omega)]
    refine ⟨rfl, ?_, ?_⟩
    · exact if_pos ⟨rfl, rfl⟩
    · intro r c hrc
      exact if_neg hrc

/-- Witness for `addNewPoint_spec` at the concrete out-of-bounds cell
(col -1, row 2) and the in-bounds cell (col 3, row 4). -/
theorem addNewPoint_spec_witness :
    addNewPoint gEmpty (-1) 2 c0 = (-1, gEmpty) ∧
    (addNewPoint gEmpty 3 4 c0).2 4 3 = { exists_ := 1, color := c0 } :=
  ⟨(addNewPoint_spec gEmpty (-1) 2 c0).1 (by decide),
   ((addNewPoint_spec gEmpty 3 4 c0).2 (by decide)).2.1⟩

/-- C1: refuted on the code.  On the grid `gC1` — two occupied cells, a
grain at (col 1, row 0) and one at (col 2, row 1) — one gravity pass on the
grain at (col 1, row 0) terminates and leaves three occupied cells: because
the loop in `sandGravity` never updates `col`/`row`, the second iteration
moves the already-moved grain a second time and duplicates it. -/
theorem sandGravity_count_not_conserved :
    occCount gC1 = 2 ∧ (sandGravity 3 gC1 1 0).map occCount = some 3 := by
  decide

/-- C3: refuted on the code.  On `gC3` a single grain sits at
(col 3, row 0) and the cell below it, (col 3, row 1), is unoccupied; one
application of the gravity rule leaves (col 3, row 1) unoccupied and instead
occupies the cell to the right, (col 4, row 0), because line 67 tests
`points[row][col + 1]` and line 69 moves to `(col + 1, row)`. -/
theorem sandGravity_first_rule_moves_right :
    (gC3 0 3).exists_ = 1 ∧ (gC3 1 3).exists_ = 0 ∧
    (sandGravityStep gC3 3 0 c0).map
      (fun g => ((g 1 3).exists_, (g 0 3).exists_, (g 0 4).exists_)) =
      some (0, -1, 1) := by
  decide

/-- C4: refuted on the code.  On `gC4` the grain at (col 1, row 0) has its
below and below-left neighbors occupied and its below-right neighbor
(col 2, row 1) unoccupied (and its right neighbor occupied, so the first
test fails); one application of the gravity rule leaves (col 2, row 1)
unoccupied and instead overwrites the occupied below-left cell
(col 0, row 1), because line 81 reuses the down-left target coordinates. -/
theorem sandGravity_third_rule_moves_left :
    (gC4 0 1).exists_ = 1 ∧ (gC4 1 1).exists_ = 1 ∧ (gC4 1 0).exists_ = 1 ∧
    (gC4 1 2).exists_ = 0 ∧ gC4 1 0 = { exists_ := 1, color := cA } ∧
    (sandGravityStep gC4 1 0 c0).map
      (fun g => ((g 1 2).exists_, g 1 0, (g 0 1).exists_)) =
      some (0, { exists_ := 1, color := c0 }, -1) := by
  decide

/-- C5: refuted on the code.  On `gC5` the grain at (col 0, row 47) is
in bounds and occupied (47 = ROWS - 1, the bottom row), yet the neighbor
tests of `sandGravity` read the grid index (row 48, col -1), which is
outside [0, ROWS) × [0, COLS): the tests have no bounds guard. -/
theorem sandGravity_reads_out_of_bounds :
    (gC5 47 0).exists_ = 1 ∧ (0 ≤ (0:ℤ) ∧ (0:ℤ) < COLS ∧ 0 ≤ (47:ℤ) ∧ (47:ℤ) < ROWS) ∧
    ((48 : ℤ), (-1 : ℤ)) ∈ sandGravityReads gC5 0 47 ∧
    ((48 : ℤ) ≥ ROWS ∧ (-1 : ℤ) < 0) := by
  decide

/-- C7: refuted on the code.  On `gC7` the grain at (col 2, row 0) has its
below, below-left and below-right neighbors all occupied — it is fully boxed
in per the claim — yet a gravity pass changes the grid: the source cell's
`exists` becomes -1 and the cell to the right, (col 3, row 0), becomes
occupied, because the first test looks at `points[row][col + 1]`. -/
theorem sandGravity_boxed_grain_moves :
    (gC7 0 2).exists_ = 1 ∧ (gC7 1 2).exists_ = 1 ∧ (gC7 1 1).exists_ = 1 ∧
    (gC7 1 3).exists_ = 1 ∧ (gC7 0 3).exists_ = 0 ∧
    (sandGravity 2 gC7 2 0).map
      (fun g => ((g 0 2).exists_, (g 0 3).exists_)) = some (-1, 1) := by
  decide

/-- C2: refuted on the code.  `main`'s loop body never calls `sandGravity`:
a frame with no events and the mouse not held leaves the state — in
particular the grid — completely unchanged, even though it contains an
occupied cell at (col 2, row 0) that the gravity rule could move (its step
function succeeds on it).  The frame polls input, rasterizes, and presents,
but applies no gravity. -/
theorem main_frame_skips_gravity :
    mainFrame 1 rand0 0 sC2 [] 0 0 = some sC2 ∧
    (sC2.points 0 2).exists_ = 1 ∧
    sandGravityStep sC2.points 2 0 (sC2.points 0 2).color ≠ none := by
  refine ⟨rfl, rfl, ?_⟩
  intro h
  simp only [sandGravityStep] at h
  rw [if_pos (by decide)] at h
  exact Option.noConfusion h

/-- Helper for the termination claim: if, at the fixed loop position
(col 2, row 0), the right neighbor and the below-left neighbor are nonzero
while the below-right neighbor is 0, the settling loop of `sandGravity`
takes its third branch forever — the branch tests (row 1, col 3) but writes
(row 1, col 1), so its own test never becomes false — and hence exhausts any
amount of fuel. -/
theorem gravityLoop_stuck (color : Color) (n : ℕ) : ∀ g : Grid,
    (g 0 3).exists_ ≠ 0 → (g 1 1).exists_ ≠ 0 → (g 1 3).exists_ = 0 →
    sandGravityLoop n g 2 0 color = none := by
  induction n with
  | zero => intro g _ _ _; rfl
  | succ n ih =>
    intro g h1 h2 h3
    have hstep : sandGravityStep g 2 0 color =
        some (addNewPoint (setExists g 0 2 (-1)) 1 1 color).2 := by
      unfold sandGravityStep
      norm_num
      rw [if_neg h1, if_neg h2, if_pos h3]
    rw [sandGravityLoop, hstep]
    have h2' : ((addNewPoint (setExists g 0 2 (-1)) 1 1 color).2 1 1).exists_ ≠ 0 := by
      have e : ((addNewPoint (setExists g 0 2 (-1)) 1 1 color).2 1 1).exists_ = 1 := rfl
      rw [e]
      exact one_ne_zero
    exact ih ((addNewPoint (setExists g 0 2 (-1)) 1 1 color).2) h1 h2' h3

/-- C6: refuted on the code.  On `gC6` the grain at (col 2, row 0) is in
bounds and occupied, yet the settling loop of `sandGravity` never
terminates: for every amount of fuel the loop is still running, because
`col`/`row` are never updated and the third branch tests the below-right
cell while writing the below-left one, so no iteration ever falsifies the
tests. -/
theorem sandGravity_loop_diverges :
    (gC6 0 2).exists_ = 1 ∧ (gC6 0 3).exists_ = 1 ∧ (gC6 1 1).exists_ = 1 ∧
    (gC6 1 3).exists_ = 0 ∧
    ¬ ∃ (n : ℕ) (g : Grid), sandGravity n gC6 2 0 = some g := by
  refine ⟨rfl, rfl, rfl, rfl, ?_⟩
  rintro ⟨n, g, h⟩
  unfold sandGravity at h
  rw [gravityLoop_stuck (gC6 0 2).color n gC6 (by decide) (by decide) (by decide)] at h
  exact Option.noConfusion h

/-- A cell other than the one `drawLine`'s loop body targets is untouched
by the painting step. -/
theorem drawLinePaint_ne (points : Grid) (rand : ℕ → ℕ) (k : ℕ) (x y r c : ℤ)
    (h : ¬ (r = y ∧ c = x)) :
    (drawLinePaint points rand k x y).1 r c = points r c := by
  unfold drawLinePaint
  split_ifs with h1 h2
  · unfold addNewPoint
    rw [if_neg (by omega)]
    exact if_neg h
  · rfl
  · rfl

/-- A cell with a nonzero `exists` field is untouched by the painting step
(the loop body paints only cells with `exists == 0`). -/
theorem drawLinePaint_occupied (points : Grid) (rand : ℕ → ℕ) (k : ℕ) (x y r c : ℤ)
    (h : (points r c).exists_ ≠ 0) :
    (drawLinePaint points rand k x y).1 r c = points r c := by
  by_cases hp : r = y ∧ c = x
  · obtain ⟨rfl, rfl⟩ := hp
    unfold drawLinePaint
    split_ifs with h1
    · rfl
    · rfl
  · exact drawLinePaint_ne points rand k x y r c hp

/-- An out-of-bounds cell is untouched by the painting step (the loop body
bounds-checks before painting). -/
theorem drawLinePaint_oob (points : Grid) (rand : ℕ → ℕ) (k : ℕ) (x y r c : ℤ)
    (h : ¬ (0 ≤ c ∧ c < COLS ∧ 0 ≤ r ∧ r < ROWS)) :
    (drawLinePaint points rand k x y).1 r c = points r c := by
  by_cases hp : r = y ∧ c = x
  · unfold drawLinePaint
    rw [if_neg (by omega)]
  · exact drawLinePaint_ne points rand k x y r c hp

/-- Frame property of `drawLine`'s loop, relative to the specification-side
Bresenham trace of the same control state: cells that start with a nonzero
`exists` field, cells off the visited trace, and out-of-bounds cells are all
left unchanged. -/
theorem drawLineLoop_frame (fuel : ℕ) :
    ∀ (points : Grid) (rand : ℕ → ℕ) (k : ℕ) (x y x2 y2 dx dy sx sy err : ℤ)
      (g' : Grid) (tr : List (ℤ × ℤ)),
      drawLineLoop fuel points rand k x y x2 y2 dx dy sx sy err = some g' →
      bresenhamLoop fuel x y x2 y2 dx dy sx sy err = some tr →
      ∀ r c : ℤ,
        ((points r c).exists_ ≠ 0 → g' r c = points r c) ∧
        ((c, r) ∉ tr → g' r c = points r c) ∧
        (¬ (0 ≤ c ∧ c < COLS ∧ 0 ≤ r ∧ r < ROWS) → g' r c = points r c) := by
  induction fuel with
  | zero =>
    intro points rand k x y x2 y2 dx dy sx sy err g' tr h _ r c
    exact Option.noConfusion h
  | succ fuel ih =>
    intro points rand k x y x2 y2 dx dy sx sy err g' tr h ht r c
    rw [drawLineLoop] at h
    rw [bresenhamLoop] at ht
    by_cases hend : x = x2 ∧ y = y2
    · rw [if_pos hend] at h ht
      injection h with h
      injection ht with ht
      subst h
      subst ht
      refine ⟨drawLinePaint_occupied points rand k x y r c,
              fun hmem => drawLinePaint_ne points rand k x y r c
                (fun hp => hmem (by simp [hp.1, hp.2])),
              drawLinePaint_oob points rand k x y r c⟩
    · rw [if_neg hend] at h ht
      cases hb : bresenhamLoop fuel
          (if 2 * err > -dy then x + sx else x)
          (if 2 * err < dx then y + sy else y)
          x2 y2 dx dy sx sy
          (if 2 * err > -dy then
            (if 2 * err < dx then err - dy + dx else err - dy)
           else
            (if 2 * err < dx then err + dx else err)) with
      | none =>
        rw [hb] at ht
        exact Option.noConfusion ht
      | some tr' =>
        rw [hb] at ht
        simp only [Option.map_some', Option.some.injEq] at ht
        subst ht
        have IH := ih _ _ _ _ _ _ _ _ _ _ _ _ _ _ h hb r c
        refine ⟨fun hocc => ?_, fun hmem => ?_, fun hob => ?_⟩
        · have e := drawLinePaint_occupied points rand k x y r c hocc
          rw [IH.1 (by rw [e]; exact hocc), e]
        · have hne : ¬ (r = y ∧ c = x) :=
            fun hp => hmem (by simp [hp.1, hp.2])
          have hmem' : (c, r) ∉ tr' := fun hm => hmem (List.mem_cons_of_mem _ hm)
          rw [IH.2.1 hmem', drawLinePaint_ne points rand k x y r c hne]
        · rw [IH.2.2 hob, drawLinePaint_oob points rand k x y r c hob]

/-- C10: for every grid, random oracle, endpoint pair and fuel on which the
rasterizer terminates, `drawLine` modifies only cells that are on the
Bresenham line between the endpoints, in bounds, and currently unoccupied
(`exists == 0`); every already-occupied cell keeps its occupancy and color,
and every cell not on the line is unchanged. -/
theorem drawLine_frame_effect (fuel : ℕ) (points : Grid) (rand : ℕ → ℕ) (k : ℕ)
    (x1 y1 x2 y2 : ℤ) (g' : Grid) (tr : List (ℤ × ℤ))
    (h : drawLine fuel points rand k x1 y1 x2 y2 = some g')
    (ht : bresenhamLine fuel x1 y1 x2 y2 = some tr) (r c : ℤ) :
    (g' r c ≠ points r c →
      ((c, r) ∈ tr ∧ (0 ≤ c ∧ c < COLS ∧ 0 ≤ r ∧ r < ROWS) ∧
        (points r c).exists_ = 0)) ∧
    ((points r c).exists_ = 1 → g' r c = points r c) ∧
    ((c, r) ∉ tr → g' r c = points r c) := by
  unfold drawLine at h
  unfold bresenhamLine at ht
  have H := drawLineLoop_frame fuel points rand k x1 y1 x2 y2 _ _ _ _ _ g' tr h ht r c
  refine ⟨fun hne => ⟨?_, ?_, ?_⟩,
          fun hocc => H.1 (by rw [hocc]; exact one_ne_zero), H.2.1⟩
  · by_contra hmem
    exact hne (H.2.1 hmem)
  · by_contra hob
    exact hne (H.2.2 hob)
  · by_contra hocc
    exact hne (H.1 hocc)

/-- Witness for `drawLine_frame_effect`: the stroke from (0,0) to (1,1) on
the empty grid, observed at the off-line cell (7,7). -/
theorem drawLine_frame_effect_witness :
    drawLine 3 gEmpty rand0 0 0 0 1 1 = some gW10 ∧
    bresenhamLine 3 0 0 1 1 = some trW10 ∧
    ((gW10 7 7 ≠ gEmpty 7 7 →
       (((7 : ℤ), (7 : ℤ)) ∈ trW10 ∧
        (0 ≤ (7 : ℤ) ∧ (7 : ℤ) < COLS ∧ 0 ≤ (7 : ℤ) ∧ (7 : ℤ) < ROWS) ∧
        (gEmpty 7 7).exists_ = 0)) ∧
     ((gEmpty 7 7).exists_ = 1 → gW10 7 7 = gEmpty 7 7) ∧
     (((7 : ℤ), (7 : ℤ)) ∉ trW10 → gW10 7 7 = gEmpty 7 7)) :=
  ⟨rfl, rfl, drawLine_frame_effect 3 gEmpty rand0 0 0 0 1 1 gW10 trW10 rfl rfl 7 7⟩

/-- C9: rasterizing a stroke from (0,0) to (5,0) on the empty grid
terminates and makes exactly the six cells (0,0) … (5,0) occupied — a cell
of the resulting grid is occupied iff it is one of those six — so no cell
outside row 0 is occupied. -/
theorem drawLine_stroke_row0 :
    drawLine 10 gEmpty rand0 0 0 0 5 0 = some gC9 ∧
    ∀ r c : ℤ, (gC9 r c).exists_ = 1 ↔ (r = 0 ∧ 0 ≤ c ∧ c ≤ 5) := by
  have h : drawLine 10 gEmpty rand0 0 0 0 5 0 = some gC9 := rfl
  have ht : bresenhamLine 10 0 0 5 0 = some trC9 := by decide
  refine ⟨h, fun r c => ⟨fun h1 => ?_, fun h2 => ?_⟩⟩
  · unfold drawLine at h
    unfold bresenhamLine at ht
    have H := drawLineLoop_frame 10 gEmpty rand0 0 0 0 5 0 _ _ _ _ _ gC9 trC9 h ht r c
    by_contra hn
    have hmem : (c, r) ∉ trC9 := by
      intro hm
      simp [trC9, Prod.ext_iff] at hm
      omega
    have e := H.2.1 hmem
    rw [e] at h1
    have e0 : (gEmpty r c).exists_ = 0 := rfl
    omega
  · obtain ⟨rfl, hc1, hc2⟩ := h2
    interval_cases c
    · decide
    · decide
    · decide
    · decide
    · decide
    · decide
